import Mathlib

/-!
# Verification of the E2E step orchestrator

A shallow embedding of the end-to-end test orchestrator (`runFeatureTest`,
`executeStep`, `extractTarget`, `extractInput`, `runAllTests`) of the
long-running-agent repository.  The external `agent-browser` process is
modelled as an oracle environment (`Env`): each invocation of the process
gateway consumes the oracle at the current call index and appends the issued
command line to a trace.  Settle delays are purely temporal and have no
observable effect in the model; they are noted in comments where the source
performs them.
-/

namespace LRA

/-- JavaScript `\s` / `String.prototype.trim` whitespace class. -/
def isJsSpace (c : Char) : Bool :=
  c = ' ' || c = '\t' || c = '\n' || c = '\r' ||
  c.val = 0x0b || c.val = 0x0c || c.val = 0xa0 || c.val = 0x1680 ||
  (0x2000 ≤ c.val && c.val ≤ 0x200a) ||
  c.val = 0x2028 || c.val = 0x2029 || c.val = 0x202f || c.val = 0x205f ||
  c.val = 0x3000 || c.val = 0xfeff

/-- Occurrence of `n` as a contiguous sublist of the second argument;
embeds JavaScript `String.prototype.includes`. -/
def subInfix (n : List Char) : List Char → Bool
  | [] => n.isEmpty
  | l@(_ :: t) => n.isPrefixOf l || subInfix n t

/-- JavaScript `hay.includes(needle)`. -/
def strIncl (hay needle : String) : Bool :=
  subInfix needle.data hay.data

/-- JavaScript `s.startsWith(p)`. -/
def strStarts (s p : String) : Bool := p.data.isPrefixOf s.data

/-- JavaScript `String.prototype.toLowerCase` (ASCII part; every keyword the
orchestrator tests is Chinese and hence fixed by lowercasing). -/
def jsLower (s : String) : String := ⟨s.data.map Char.toLower⟩

/-- JavaScript `String.prototype.trim` on the character list. -/
def trimChars (l : List Char) : List Char :=
  ((l.dropWhile isJsSpace).reverse.dropWhile isJsSpace).reverse

/-- JavaScript `s.trim()`. -/
def trimJs (s : String) : String := ⟨trimChars s.data⟩

/-- The alternation `(打开|进入|访问|点击|验证|检查|确认|选择|等待)` of
`extractTarget`'s first `replace`. -/
def targetVerbs : List String :=
  ["打开", "进入", "访问", "点击", "验证", "检查", "确认", "选择", "等待"]

/-- The alternation `(验证|检查|确认)` stripped from a verify step's text. -/
def verifyVerbs : List String := ["验证", "检查", "确认"]

/-- `text.replace(/^(kw1|kw2|…)\s*/, '')`: drop one leading keyword of the
alternation (first alternative that matches) together with the following
whitespace run; leave the text unchanged when no keyword is a prefix. -/
def stripLeadKw (kws : List String) (l : List Char) : List Char :=
  match kws.find? (fun v => v.data.isPrefixOf l) with
  | some v => (l.drop v.data.length).dropWhile isJsSpace
  | none => l

/-- The label→route table (`routes` object literal), in the alternation order
`(登录页|课程列表|课程表|个人中心|已选课程)` of the second `replace` of
`extractTarget`. -/
def routePairs : List (String × String) :=
  [("登录页", "/login"), ("课程列表", "/courses"), ("课程表", "/schedule"),
   ("个人中心", "/profile"), ("已选课程", "/selected")]

/-- `text.replace(/^(登录页|课程列表|课程表|个人中心|已选课程)/, m => routes[m])`:
replace a leading label by its route path. -/
def replaceRoutePrefix (l : List Char) : List Char :=
  match routePairs.find? (fun p => p.1.data.isPrefixOf l) with
  | some p => p.2.data ++ l.drop p.1.data.length
  | none => l

/-- Exact lookup `routes[target]` (used by the verify branch's URL check). -/
def routeLookup (target : String) : Option String :=
  (routePairs.find? (fun p => p.1 = target)).map (·.2)

/-- The character class `["「」『』]` removed globally from targets. -/
def isQuoteCh (c : Char) : Bool :=
  c = '"' || c = '「' || c = '」' || c = '『' || c = '』'

/-- `text.replace(/["「」『』]/g, '')`. -/
def stripQuotes (l : List Char) : List Char := l.filter (fun c => !isQuoteCh c)

/-- `extractTarget(step)` (lines 374–389 of the source): strip one leading
verb with trailing spaces, then resolve a leading known label to its route,
then strip quote punctuation, then trim. -/
def extractTarget (step : String) : String :=
  ⟨trimChars (stripQuotes (replaceRoutePrefix (stripLeadKw targetVerbs step.data)))⟩

/-- Modelled from the spec: the extraction pipeline in the order §4.4 states
it — verb removal, quote stripping, trimming, and only then the label→path
table "when the remaining text matches a table key exactly at the start".
Used solely to compare the spec's description against `extractTarget`. -/
def extractTargetSpecOrder (step : String) : String :=
  ⟨replaceRoutePrefix (trimChars (stripQuotes (stripLeadKw targetVerbs step.data)))⟩

/-- The verify branch's target cleaning
(`step.replace(/^(验证|检查|确认)\s*_/i,'').replace(/["「」『』]/g,'').trim()`). -/
def verifyTargetOf (step : String) : String :=
  ⟨trimChars (stripQuotes (stripLeadKw verifyVerbs step.data))⟩

/-! ## The three `extractInput` regular patterns

`/输入\s*(\S+)\s+(\S+)/`, `/填写\s*(\S+)\s+(\S+)/` and
`/在\s*(\S+)\s*中输入\s*(\S+)/`, with JavaScript left-to-right search and
greedy quantifier semantics.  For the first two shapes maximal munch is exact
(a failed maximal attempt cannot be saved by backtracking, since `\S+` can
never consume a space nor `\s+` a non-space); the third needs the genuine
greedy backtracking of `(\S+)` before the literal `中输入`, implemented in
`p3Try` by descending over the split point. -/

/-- Attempt `KW\s*(\S+)\s+(\S+)` exactly at the head of `l`. -/
def matchFieldValue (kw : List Char) (l : List Char) : Option (List Char × List Char) :=
  if kw.isPrefixOf l then
    let r1 := (l.drop kw.length).dropWhile isJsSpace
    let f := r1.takeWhile (fun c => !isJsSpace c)
    if f.isEmpty then none else
    let r2 := r1.drop f.length
    let sp := r2.takeWhile isJsSpace
    if sp.isEmpty then none else
    let v := (r2.drop sp.length).takeWhile (fun c => !isJsSpace c)
    if v.isEmpty then none else some (f, v)
  else none

/-- Left-to-right search of `KW\s*(\S+)\s+(\S+)` (JavaScript `String.match`). -/
def searchFieldValue (kw : List Char) : List Char → Option (List Char × List Char)
  | [] => matchFieldValue kw []
  | l@(_ :: t) =>
    match matchFieldValue kw l with
    | some r => some r
    | none => searchFieldValue kw t

/-- Tail `\s*(\S+)` of the third pattern: skip whitespace, then capture a
nonempty maximal non-space run. -/
def p3Value (after : List Char) : Option (List Char) :=
  let v := (after.dropWhile isJsSpace).takeWhile (fun c => !isJsSpace c)
  if v.isEmpty then none else some v

/-- Continuation `\s*中输入\s*(\S+)` of the third pattern. -/
def p3Cont (after : List Char) : Option (List Char) :=
  let a := after.dropWhile isJsSpace
  if "中输入".data.isPrefixOf a then p3Value (a.drop 3) else none

/-- Greedy descent for the first capture of `/在\s*(\S+)\s*中输入\s*(\S+)/`:
try the longest prefix of the non-space run first, as the backtracking
`(\S+)` does. -/
def p3Try (run rest : List Char) : Nat → Option (List Char × List Char)
  | 0 => none
  | i + 1 =>
    match p3Cont (run.drop (i + 1) ++ rest) with
    | some v => some (run.take (i + 1), v)
    | none => p3Try run rest i

/-- Attempt `/在\s*(\S+)\s*中输入\s*(\S+)/` exactly at the head of `l`. -/
def matchP3 (l : List Char) : Option (List Char × List Char) :=
  if "在".data.isPrefixOf l then
    let r1 := (l.drop 1).dropWhile isJsSpace
    let run := r1.takeWhile (fun c => !isJsSpace c)
    p3Try run (r1.drop run.length) run.length
  else none

/-- Left-to-right search of the third pattern. -/
def searchP3 : List Char → Option (List Char × List Char)
  | [] => matchP3 []
  | l@(_ :: t) =>
    match matchP3 l with
    | some r => some r
    | none => searchP3 t

/-- `{field, value}` pair (`extractInput`'s result and `feature.testData`). -/
structure InputPair where
  field : String
  value : String
deriving DecidableEq, Repr

/-- A feature as consumed by the orchestrator: `id`, `description`, `steps`,
the `passes` acceptance flag used by the batch runner, and optional
`testData`. -/
structure Feature where
  id : String
  description : String
  steps : List String
  passes : Bool
  testData : Option InputPair
deriving DecidableEq, Repr

/-- `extractInput(step, feature)` (lines 394–413): the three patterns in
order, then `feature.testData`, then the generic pair. -/
def extractInput (step : String) (feature : Feature) : InputPair :=
  match searchFieldValue "输入".data step.data with
  | some (f, v) => ⟨⟨f⟩, ⟨v⟩⟩
  | none =>
  match searchFieldValue "填写".data step.data with
  | some (f, v) => ⟨⟨f⟩, ⟨v⟩⟩
  | none =>
  match searchP3 step.data with
  | some (f, v) => ⟨⟨f⟩, ⟨v⟩⟩
  | none =>
  match feature.testData with
  | some td => td
  | none => ⟨"input", "test"⟩

/-- The classified intent of a step (§4.3 of the spec); the branches of
`executeStep`'s `if`/`else if` chain. -/
inductive ActionKind
  | navigate
  | click
  | fill
  | verify
  | login
  | wait
  | dflt
deriving DecidableEq, Repr

/-- The dispatch of `executeStep` (lines 205–362): substring tests on the
lowered step text, in source order, first match wins. -/
def classifyStep (step : String) : ActionKind :=
  let sl := jsLower step
  if strIncl sl "打开" || strIncl sl "进入" || strIncl sl "访问" then .navigate
  else if strIncl sl "点击" then .click
  else if strIncl sl "输入" || strIncl sl "填写" then .fill
  else if strIncl sl "验证" || strIncl sl "检查" || strIncl sl "确认" then .verify
  else if strIncl sl "登录" then .login
  else if strIncl sl "等待" then .wait
  else .dflt

/-! ## Process gateway, session and orchestrator

`runAgentBrowserCommand` is embedded as an oracle lookup: the external
process's answer to the `n`-th invocation with a given argument string is
`Env.oracle n args`.  The `silent`/`timeout` options only affect console
interleaving and the point at which the child is killed; a timeout surfaces
as `success = false` and is therefore already covered by the oracle. -/

/-- Normalized result of one external command (`{success, output, error}`). -/
structure CmdResult where
  success : Bool
  output : String
  error : String
deriving DecidableEq, Repr

/-- A parsed `snapshot -i --json` value: its `success` field and, when the
`data` field is present (truthy), the text `JSON.stringify(snapshot.data)`
serializes it to. -/
structure Snapshot where
  success : Bool
  data : Option String
deriving DecidableEq, Repr

/-- The external world: whether `agent-browser` is on the PATH (`installed`),
whether a global-install attempt would succeed (`installOk`), the process
oracle, the defensive JSON parse, and `Date.now()` as observed before the
`n`-th command. -/
structure Env where
  installed : Bool
  installOk : Bool
  oracle : Nat → String → CmdResult
  parseJson : String → Option Snapshot
  now : Nat → Nat

/-- Gateway state: number of commands issued so far and their argument
strings in order. -/
structure TState where
  count : Nat
  trace : List String
deriving DecidableEq, Repr

/-- `runAgentBrowserCommand(args, opts)`: consume the oracle, record the
command. -/
def runCmd (env : Env) (s : TState) (args : String) : CmdResult × TState :=
  (env.oracle s.count args, ⟨s.count + 1, s.trace ++ [args]⟩)

/-- `ensureAgentBrowserInstalled()` as a pure condition (its console output
and the `npm install` side effect are unobservable here). -/
def depAvailable (env : Env) : Bool := env.installed || env.installOk

/-- `getSnapshot()` (lines 75–86): run `snapshot -i --json`; on success with
nonempty output, JSON-parse defensively (`null` on failure). -/
def getSnapshot (env : Env) (s : TState) : Option Snapshot × TState :=
  let (r, s') := runCmd env s "snapshot -i --json"
  (if r.success && !(r.output = "") then env.parseJson r.output else none, s')

/-- The zero-step branch's test `snapshot && snapshot.success`. -/
def snapshotOk : Option Snapshot → Bool
  | some sn => sn.success
  | none => false

/-- Per-step outcome (`result` object of `executeStep`). -/
structure StepOutcome where
  passed : Bool
  error : Option String
deriving DecidableEq, Repr

/-- The click branch's strategy loop: try each command in order, stop at the
first success. -/
def tryStrategies (env : Env) : List String → TState → Bool × TState
  | [], s => (false, s)
  | c :: cs, s =>
    let (r, s1) := runCmd env s c
    if r.success then (true, s1) else tryStrategies env cs s1

/-- `executeStep(feature, step, baseUrl)` (lines 205–369).  The dispatch is
the `if`/`else if` chain captured by `classifyStep`; nothing in the body can
throw in this model, so the surrounding `try`/`catch` is inert. -/
def executeStep (env : Env) (feature : Feature) (step baseUrl : String) (s : TState) :
    StepOutcome × TState :=
  match classifyStep step with
  | .navigate =>
    let target := extractTarget step
    let url := if strStarts target "http" then target else baseUrl ++ target
    let (navR, s1) := runCmd env s ("open " ++ url)
    (⟨navR.success, if navR.success then none else some navR.error⟩, s1)
  | .click =>
    let target := extractTarget step
    let (ok, s1) := tryStrategies env
      ["find role button click --name \"" ++ target ++ "\"",
       "find text \"" ++ target ++ "\" click",
       "click \"text=" ++ target ++ "\""] s
    (⟨ok, if ok then none else some ("Could not click: \"" ++ target ++ "\"")⟩, s1)
  | .fill =>
    if strIncl (jsLower step) "学号" && strIncl (jsLower step) "密码" then
      let (idR, s1) := runCmd env s "find placeholder 学号 fill 2021001"
      if idR.success then
        -- 300 ms settle between the two fills
        let (pwR, s2) := runCmd env s1 "find placeholder 密码 fill 123456"
        (⟨pwR.success, if pwR.success then none
          else some "Failed to fill login credentials"⟩, s2)
      else
        (⟨false, some "Failed to fill login credentials"⟩, s1)
    else
      let fv := extractInput step feature
      let (fillR, s1) := runCmd env s
        ("find placeholder " ++ fv.field ++ " fill " ++ fv.value)
      if fillR.success then (⟨true, none⟩, s1)
      else
        let (fbR, s2) := runCmd env s1
          ("fill \"[placeholder*=\\\"" ++ fv.field ++ "\\\"]\" \"" ++ fv.value ++ "\"")
        (⟨fbR.success, if fbR.success then none
          else some ("Could not fill field: \"" ++ fv.field ++ "\"")⟩, s2)
  | .verify =>
    -- 1500 ms settle before gathering evidence
    let target := verifyTargetOf step
    let (snap, s1) := getSnapshot env s
    let (p, s2) :=
      match snap with
      | some sn =>
        match sn.data with
        | some d =>
          if strIncl d target then (true, s1)
          else
            let (textR, s1') := runCmd env s1 "get text body"
            (if textR.success && !(textR.output = "") then strIncl textR.output target
             else false, s1')
        | none => (false, s1)
      | none => (false, s1)
    if p then (⟨true, none⟩, s2)
    else
      let (urlR, s3) := runCmd env s2 "url"
      let p3 :=
        if urlR.success && !(urlR.output = "") then
          strIncl urlR.output ((routeLookup target).getD target)
        else false
      (⟨p3, if p3 then none else some ("Could not find: \"" ++ target ++ "\"")⟩, s3)
  | .login =>
    let (idR, s1) := runCmd env s "find placeholder 学号 fill 2021001"
    if idR.success then
      let (pwR, s2) := runCmd env s1 "find placeholder 密码 fill 123456"
      if pwR.success then
        let (lR, s3) := runCmd env s2 "find role button click --name 登录"
        (⟨lR.success, if lR.success then none else some "Login step failed"⟩, s3)
      else (⟨false, some "Login step failed"⟩, s2)
    else (⟨false, some "Login step failed"⟩, s1)
  | .wait => (⟨true, none⟩, s)   -- parses `/(\d+)/` for a delay; purely temporal
  | .dflt => (⟨true, none⟩, s)

/-- One entry of `results.steps` (`{step, passed, error}`). -/
structure StepRecord where
  step : String
  passed : Bool
  error : Option String
deriving DecidableEq, Repr, Inhabited

/-- The `results` object `runFeatureTest` returns. -/
structure FeatureResult where
  featureId : String
  description : String
  steps : List StepRecord
  passed : Bool
  error : Option String
  screenshots : List String
deriving DecidableEq, Repr

/-- JavaScript template-literal rendering of a possibly-`null` string. -/
def jsTemplate : Option String → String
  | some s => s
  | none => "null"

/-- Mutations the step loop performs on `results`. -/
structure LoopOut where
  recs : List StepRecord
  passed : Bool
  error : Option String
  shots : List String
deriving DecidableEq, Repr

/-- The `for` loop of lines 145–174: execute steps in order, record each
outcome, and on the first failure capture a best-effort screenshot, set the
overall error to `Step ⟨i+1⟩ failed: …` and break.  `i` is the zero-based
index of the first remaining step within the whole list. -/
def runStepsLoop (env : Env) (feature : Feature) (baseUrl : String) :
    List String → Nat → TState → LoopOut × TState
  | [], _, s => (⟨[], true, none, []⟩, s)
  | step :: rest, i, s =>
    let (sr, s1) := executeStep env feature step baseUrl s
    if sr.passed then
      -- 500 ms inter-step settle
      let (out, s2) := runStepsLoop env feature baseUrl rest (i + 1) s1
      (⟨⟨step, sr.passed, sr.error⟩ :: out.recs, out.passed, out.error, out.shots⟩, s2)
    else
      let shot := "test-failure-" ++ feature.id ++ "-" ++ toString (env.now s1.count) ++ ".png"
      let (_, s2) := runCmd env s1 ("screenshot " ++ shot)
      (⟨[⟨step, sr.passed, sr.error⟩], false,
        some ("Step " ++ toString (i + 1) ++ " failed: " ++ jsTemplate sr.error), [shot]⟩, s2)

/-- Recognized run options: `baseUrl` (falsy values replaced by the local
default), `headless` (`options.headless === true`) and the batch runner's
`testAll`. -/
structure RunOptions where
  baseUrl : Option String
  headless : Bool
  testAll : Bool
deriving DecidableEq, Repr

/-- `options.baseUrl || 'http://localhost:3000'`. -/
def effBaseUrl (u : Option String) : String :=
  match u with
  | some b => if b = "" then "http://localhost:3000" else b
  | none => "http://localhost:3000"

/-- The argument string of the session-opening command
(`open ⟨baseUrl⟩ ⟨headedFlag⟩`). -/
def openCmdOf (opts : RunOptions) : String :=
  "open " ++ effBaseUrl opts.baseUrl ++ " " ++ (if opts.headless then "" else "--headed")

/-- Lines 128–134: issue `open`; on failure issue a best-effort `close`
(result ignored) and retry `open` exactly once, returning the final
attempt's result. -/
def openWithRetry (env : Env) (cmd : String) (s : TState) : CmdResult × TState :=
  let (r1, s1) := runCmd env s cmd
  if r1.success then (r1, s1)
  else
    let (_, s2) := runCmd env s1 "close"
    runCmd env s2 cmd

/-- `runFeatureTest(feature, options)` (lines 91–200).  The
dependency-missing branch returns before the `try`; the open-failure throw is
caught at line 190 and the `finally` close always runs for any run that
entered the `try`. -/
def runFeatureTest (env : Env) (feature : Feature) (opts : RunOptions) (s : TState) :
    FeatureResult × TState :=
  if !depAvailable env then
    (⟨feature.id, feature.description, [], false,
      some "agent-browser is not installed", []⟩, s)
  else
    let (openR, s1) := openWithRetry env (openCmdOf opts) s
    if openR.success then
      -- 2000 ms page-load settle
      if feature.steps.isEmpty then
        -- generic validation of lines 175–188; no StepResult is pushed
        let (snap, s2) := getSnapshot env s1
        let ok := snapshotOk snap
        let (_, s3) := runCmd env s2 "close"
        (⟨feature.id, feature.description, [], ok,
          if ok then none else some "Page failed to load", []⟩, s3)
      else
        let (out, s2) := runStepsLoop env feature (effBaseUrl opts.baseUrl) feature.steps 0 s1
        let (_, s3) := runCmd env s2 "close"
        (⟨feature.id, feature.description, out.recs, out.passed, out.error, out.shots⟩, s3)
    else
      let (_, s2) := runCmd env s1 "close"
      (⟨feature.id, feature.description, [], false,
        some ("Failed to open browser: " ++ openR.error), []⟩, s2)

/-- The summary `runAllTests` returns. -/
structure BatchResult where
  total : Nat
  passed : Nat
  failed : Nat
  results : List FeatureResult
  error : Option String
deriving DecidableEq, Repr

/-- The `for (const feature of features)` loop of lines 455–468: run exactly
the features with `passes` set or when `testAll` is given, threading the
session state, and count passes and failures. -/
def runBatchLoop (env : Env) (opts : RunOptions) :
    List Feature → TState → List FeatureResult × Nat × Nat × TState
  | [], s => ([], 0, 0, s)
  | f :: fs, s =>
    if f.passes || opts.testAll then
      let (r, s1) := runFeatureTest env f opts s
      let (rs, p, q, s2) := runBatchLoop env opts fs s1
      (r :: rs, (if r.passed then p + 1 else p), (if r.passed then q else q + 1), s2)
    else
      runBatchLoop env opts fs s

/-- `runAllTests(features, options)` (lines 436–484): verify the dependency
once up front, else iterate the loop and report `{total, passed, failed,
results}` with `total = passed + failed`. -/
def runAllTests (env : Env) (features : List Feature) (opts : RunOptions) (s : TState) :
    BatchResult × TState :=
  if !depAvailable env then
    (⟨features.length, 0, features.length, [],
      some "agent-browser is not installed"⟩, s)
  else
    let (rs, p, q, s1) := runBatchLoop env opts features s
    (⟨p + q, p, q, rs, none⟩, s1)

/-- Number of `close` commands in a trace. -/
def closeCount : List String → Nat
  | [] => 0
  | c :: t => (if c = "close" then 1 else 0) + closeCount t

/-- An oracle whose answers do not depend on the invocation index, so that
"the answer the external process would give to a command" is well defined
independently of when (or whether) the command is issued. -/
def stableOracle (env : Env) : Prop := ∀ n m c, env.oracle n c = env.oracle m c

/-- The exact acceptance condition of the verify branch for a
position-independent oracle: the snapshot text is consulted first; the
rendered page text only when the parsed snapshot carried data and its text
missed; the current URL (against the label→route table) only when neither
earlier source accepted. -/
def verifyEval (env : Env) (target : String) : Bool :=
  let snapAns := env.oracle 0 "snapshot -i --json"
  let snap :=
    if snapAns.success && !(snapAns.output = "") then env.parseJson snapAns.output else none
  let fromSnapshot :=
    match snap with
    | some sn => match sn.data with | some d => strIncl d target | none => false
    | none => false
  let fromText :=
    match snap with
    | some sn =>
      match sn.data with
      | some d =>
        !strIncl d target &&
          (let t := env.oracle 0 "get text body"
           t.success && !(t.output = "") && strIncl t.output target)
      | none => false
    | none => false
  let p2 := fromSnapshot || fromText
  let fromUrl :=
    let u := env.oracle 0 "url"
    u.success && !(u.output = "") && strIncl u.output ((routeLookup target).getD target)
  p2 || (!p2 && fromUrl)

/-! ## Concrete fixtures for witnesses and counterexamples -/

/-- Dependency present; every command succeeds; snapshots parse with
`success` and data text `"SNAP"`; the clock reads 7. -/
def envAllOk : Env :=
  ⟨true, true, fun _ _ => ⟨true, "ok", ""⟩, fun _ => some ⟨true, some "SNAP"⟩, fun _ => 7⟩

/-- Dependency present; only `open`-prefixed commands succeed, everything
else fails with message `"boom"`; JSON never parses. -/
def envClickFail : Env :=
  ⟨true, true,
   fun _ c => if strStarts c "open" then ⟨true, "", ""⟩ else ⟨false, "", "boom"⟩,
   fun _ => none, fun _ => 7⟩

/-- `agent-browser` absent and the install attempt fails. -/
def envNoDep : Env :=
  ⟨false, false, fun _ _ => ⟨true, "", ""⟩, fun _ => none, fun _ => 0⟩

/-- Dependency present; every command fails. -/
def envAllFail : Env :=
  ⟨true, true, fun _ _ => ⟨false, "", "down"⟩, fun _ => none, fun _ => 0⟩

/-- Dependency present; the snapshot command succeeds but its output does not
parse; the page text contains `目标`; the URL does not. -/
def envNoSnapData : Env :=
  ⟨true, true,
   fun _ c =>
     if c = "get text body" then ⟨true, "页面 目标 文本", ""⟩
     else if c = "url" then ⟨true, "/nope", ""⟩
     else ⟨true, "garbage", ""⟩,
   fun _ => none, fun _ => 7⟩

/-- Default options: no `baseUrl`, headed, `testAll` unset. -/
def optsDefault : RunOptions := ⟨none, false, false⟩

/-- Options with `testAll` set. -/
def optsTestAll : RunOptions := ⟨none, false, true⟩

/-- A feature without steps. -/
def featNoSteps : Feature := ⟨"F0", "d", [], true, none⟩

/-- A feature with one click step. -/
def featOneStep : Feature := ⟨"F1", "d", ["点击X"], true, none⟩

/-- An accepted feature (batch runner includes it). -/
def featA : Feature := ⟨"A", "d", [], true, none⟩

/-- A not-yet-accepted feature (batch runner skips it without `testAll`). -/
def featB : Feature := ⟨"B", "d", [], false, none⟩

/-- A feature with one verify step on `目标`. -/
def featVerify : Feature := ⟨"FV", "d", ["验证 目标"], true, none⟩


/-! ## Theorems -/

/-- C8 counterexample: the spec's pipeline order (verb, quotes, trim, then
the label table) resolves `打开「登录页」` to `/login`, but `extractTarget`
applies the table before quote stripping and returns the bare label. -/
theorem extractTarget_spec_order_mismatch :
    extractTarget "打开「登录页」" = "登录页" ∧
    extractTargetSpecOrder "打开「登录页」" = "/login" ∧
    extractTarget "打开「登录页」" ≠ extractTargetSpecOrder "打开「登录页」" := by
  refine ⟨by decide, by decide, by decide⟩

/-- C8 (amended): `extractTarget` removes a leading recognized verb with its
trailing whitespace, applies the label→path table to the text that remains
*before* stripping quote punctuation and trimming, and otherwise returns the
cleaned text: `打开 登录页` resolves to `/login` (and likewise every table
label), `打开 https://x.test/y` is returned unchanged, and a quoted label
such as `打开「登录页」` is *not* resolved. -/
theorem extractTarget_resolves_labels :
    extractTarget "打开 登录页" = "/login" ∧
    extractTarget "打开 https://x.test/y" = "https://x.test/y" ∧
    (routePairs.all (fun p => extractTarget ("打开 " ++ p.1) == p.2)) = true ∧
    extractTarget "打开「登录页」" = "登录页" ∧
    extractTarget "随便写点" = "随便写点" := by
  refine ⟨by decide, by decide, by decide, by decide, by decide⟩

/-- C9: `extractInput` tries the three `input/fill FIELD VALUE` patterns in
order and returns the first match's captures even when `testData` is
present; when no pattern matches it falls back to the feature's `testData`
pair, and failing that to the generic `{field:"input", value:"test"}`. -/
theorem extractInput_patterns_and_fallback :
    extractInput "输入 用户名 alice" ⟨"F", "", [], false, none⟩ = ⟨"用户名", "alice"⟩ ∧
    extractInput "输入 用户名 alice" ⟨"F", "", [], false, some ⟨"f", "v"⟩⟩ = ⟨"用户名", "alice"⟩ ∧
    extractInput "随便一句话" ⟨"F", "", [], false, some ⟨"f", "v"⟩⟩ = ⟨"f", "v"⟩ ∧
    extractInput "随便一句话" ⟨"F", "", [], false, none⟩ = ⟨"input", "test"⟩ ∧
    extractInput "填写 密码 123456" ⟨"F", "", [], false, none⟩ = ⟨"密码", "123456"⟩ ∧
    extractInput "在 用户名 中输入 alice" ⟨"F", "", [], false, none⟩ = ⟨"用户名", "alice"⟩ ∧
    extractInput "在 用户名中输入 alice" ⟨"F", "", [], false, none⟩ = ⟨"用户名", "alice"⟩ := by
  refine ⟨by decide, by decide, by decide, by decide, by decide, by decide, by decide⟩

/-- C5 counterexample: a step text containing both a Click keyword and a
Verify keyword need not execute as Click — with a Navigate keyword also
present the first-match-wins chain picks Navigate. -/
theorem classify_click_verify_counterexample :
    strIncl (jsLower "打开页面并点击并验证列表") "点击" = true ∧
    strIncl (jsLower "打开页面并点击并验证列表") "验证" = true ∧
    classifyStep "打开页面并点击并验证列表" ≠ ActionKind.click ∧
    classifyStep "打开页面并点击并验证列表" = ActionKind.navigate := by
  refine ⟨by decide, by decide, by decide, by decide⟩

/-- C5 (amended): classification is first-match-wins in the order Navigate →
Click → Fill → Verify → Login → Wait → Default; a step text containing a
Click keyword never classifies as Verify, and when it contains no Navigate
keyword it classifies as Click (e.g. `点击并验证课程列表`). -/
theorem classify_click_precedence (step : String)
    (hc : strIncl (jsLower step) "点击" = true) :
    classifyStep step ≠ ActionKind.verify ∧
    (strIncl (jsLower step) "打开" = false → strIncl (jsLower step) "进入" = false →
      strIncl (jsLower step) "访问" = false → classifyStep step = ActionKind.click) := by
  have e : classifyStep step =
      if strIncl (jsLower step) "打开" || strIncl (jsLower step) "进入" ||
          strIncl (jsLower step) "访问" then ActionKind.navigate
      else ActionKind.click := by
    simp [classifyStep, hc]
  refine ⟨?_, ?_⟩
  · intro hv
    rw [e] at hv
    cases hnav : (strIncl (jsLower step) "打开" || strIncl (jsLower step) "进入" ||
        strIncl (jsLower step) "访问") <;> rw [hnav] at hv <;> simp at hv
  · intro h1 h2 h3
    rw [e, h1, h2, h3]
    simp

/-- Witness for `classify_click_precedence` at the spec's own example. -/
theorem classify_click_precedence_witness :
    strIncl (jsLower "点击并验证课程列表") "点击" = true ∧
    (classifyStep "点击并验证课程列表" ≠ ActionKind.verify ∧
      (strIncl (jsLower "点击并验证课程列表") "打开" = false →
        strIncl (jsLower "点击并验证课程列表") "进入" = false →
        strIncl (jsLower "点击并验证课程列表") "访问" = false →
        classifyStep "点击并验证课程列表" = ActionKind.click)) :=
  ⟨by decide, classify_click_precedence "点击并验证课程列表" (by decide)⟩

/-- C1 counterexample: in the dependency-missing branch `runFeatureTest`
returns before the `try`/`finally`, so no `close` command (indeed no command
at all) is issued — not exactly one. -/
theorem close_missing_when_dependency_missing :
    closeCount (runFeatureTest envNoDep featOneStep optsDefault ⟨0, []⟩).2.trace ≠ 1 ∧
    (runFeatureTest envNoDep featOneStep optsDefault ⟨0, []⟩).2.trace = [] := by
  refine ⟨by decide, by decide⟩

/-- C3 counterexample: for a feature with zero steps the generic-validation
branch never pushes a StepResult — the result has zero StepResults, not one
synthetic one. -/
theorem zero_steps_no_synthetic_record :
    (runFeatureTest envAllOk featNoSteps optsDefault ⟨0, []⟩).1.steps = [] ∧
    (runFeatureTest envAllOk featNoSteps optsDefault ⟨0, []⟩).1.passed = true ∧
    (runFeatureTest envAllOk featNoSteps optsDefault ⟨0, []⟩).1.steps.length ≠ 1 := by
  refine ⟨by decide, by decide, by decide⟩

/-- C4 counterexample: when the snapshot fetch yields no parsed data, the
rendered page text is never consulted — here the page text contains the
target `目标` yet the verify step fails, and the trace shows that
`get text body` was never issued. -/
theorem verify_page_text_skipped_counterexample :
    classifyStep "验证 目标" = ActionKind.verify ∧
    strIncl (envNoSnapData.oracle 0 "get text body").output "目标" = true ∧
    (executeStep envNoSnapData featVerify "验证 目标" "http://localhost:3000" ⟨0, []⟩).1.passed
      = false ∧
    (executeStep envNoSnapData featVerify "验证 目标" "http://localhost:3000" ⟨0, []⟩).2.trace
      = ["snapshot -i --json", "url"] := by
  refine ⟨by decide, by decide, by decide, by decide⟩


/-! ### Close-count bookkeeping (for C1) -/

theorem closeCount_append (a b : List String) :
    closeCount (a ++ b) = closeCount a + closeCount b := by
  induction a with
  | nil => simp [closeCount]
  | cons c t ih => simp [closeCount, ih, Nat.add_assoc]

theorem prefix_ne_close {p : String} {c : Char} {rest : List Char}
    (hp : p.data = c :: rest) (hc : c ≠ 'c') (u : String) : p ++ u ≠ "close" := by
  intro e
  have h2 : (p ++ u).data = "close".data := congrArg String.data e
  have hcl : "close".data = ['c', 'l', 'o', 's', 'e'] := rfl
  rw [String.data_append, hp, hcl, List.cons_append] at h2
  injection h2 with h3 _
  exact hc h3

theorem long_ne_close {p : String} (hp : 5 < p.length) (u : String) : p ++ u ≠ "close" := by
  intro e
  have h2 : (p ++ u).length = "close".length := congrArg String.length e
  have h3 : "close".length = 5 := rfl
  rw [String.length_append, h3] at h2
  omega

theorem length_append_gt (x y : String) (h : 5 < x.length) : 5 < (x ++ y).length := by
  rw [String.length_append]; omega

theorem open_ne_close (u : String) : "open " ++ u ≠ "close" :=
  prefix_ne_close rfl (by decide) u

theorem closeCount_runCmd (env : Env) (s : TState) (args : String) (h : args ≠ "close") :
    closeCount (runCmd env s args).2.trace = closeCount s.trace := by
  simp [runCmd, closeCount_append, closeCount, h]

theorem closeCount_getSnapshot (env : Env) (s : TState) :
    closeCount (getSnapshot env s).2.trace = closeCount s.trace :=
  closeCount_runCmd env s _ (by decide)

theorem closeCount_concat_ne (l : List String) (c : String) (h : c ≠ "close") :
    closeCount (l ++ [c]) = closeCount l := by
  simp [closeCount_append, closeCount, h]

theorem ifclose_open (u : String) : (if "open " ++ u = "close" then 1 else 0) = 0 := by
  simp [open_ne_close u]

theorem ifclose_role (t : String) :
    (if "find role button click --name \"" ++ t ++ "\"" = "close" then 1 else 0) = 0 := by
  simp [long_ne_close (length_append_gt "find role button click --name \"" t (by decide)) "\""]

theorem ifclose_text (t : String) :
    (if "find text \"" ++ t ++ "\" click" = "close" then 1 else 0) = 0 := by
  simp [long_ne_close (length_append_gt "find text \"" t (by decide)) "\" click"]

theorem ifclose_sel (t : String) :
    (if "click \"text=" ++ t ++ "\"" = "close" then 1 else 0) = 0 := by
  simp [long_ne_close (length_append_gt "click \"text=" t (by decide)) "\""]

theorem ifclose_fill (f v : String) :
    (if "find placeholder " ++ f ++ " fill " ++ v = "close" then 1 else 0) = 0 := by
  simp [long_ne_close
    (length_append_gt ("find placeholder " ++ f) " fill "
      (length_append_gt "find placeholder " f (by decide))) v]

theorem ifclose_fill_fb (f v : String) :
    (if "fill \"[placeholder*=\\\"" ++ f ++ "\\\"]\" \"" ++ v ++ "\"" = "close"
      then 1 else 0) = 0 := by
  simp [long_ne_close
    (length_append_gt ("fill \"[placeholder*=\\\"" ++ f ++ "\\\"]\" \"") v
      (length_append_gt ("fill \"[placeholder*=\\\"" ++ f) "\\\"]\" \""
        (length_append_gt "fill \"[placeholder*=\\\"" f (by decide)))) "\""]

theorem ifclose_screenshot (u : String) :
    (if "screenshot " ++ u = "close" then 1 else 0) = 0 := by
  simp [long_ne_close (by decide : (5 : Nat) < "screenshot ".length) u]

theorem ifclose_id : (if "find placeholder 学号 fill 2021001" = "close" then 1 else 0) = 0 := by
  decide

theorem ifclose_pw : (if "find placeholder 密码 fill 123456" = "close" then 1 else 0) = 0 := by
  decide

theorem ifclose_loginbtn :
    (if "find role button click --name 登录" = "close" then 1 else 0) = 0 := by decide

theorem ifclose_snapshot : (if "snapshot -i --json" = "close" then 1 else 0) = 0 := by decide

theorem ifclose_gettext : (if "get text body" = "close" then 1 else 0) = 0 := by decide

theorem ifclose_url : (if "url" = "close" then 1 else 0) = 0 := by decide

theorem closeCount_executeStep (env : Env) (feature : Feature) (step baseUrl : String)
    (s : TState) :
    closeCount (executeStep env feature step baseUrl s).2.trace = closeCount s.trace := by
  unfold executeStep
  cases hc : classifyStep step
  all_goals simp only [tryStrategies, runCmd, getSnapshot]
  all_goals repeat' split
  all_goals
    simp [closeCount_append, closeCount, ifclose_open, ifclose_role, ifclose_text,
      ifclose_sel, ifclose_fill, ifclose_fill_fb, ifclose_screenshot, ifclose_id,
      ifclose_pw, ifclose_loginbtn, ifclose_snapshot, ifclose_gettext, ifclose_url]


theorem closeCount_runClose (env : Env) (s : TState) :
    closeCount (runCmd env s "close").2.trace = closeCount s.trace + 1 := by
  simp [runCmd, closeCount_append, closeCount]

theorem closeCount_runStepsLoop (env : Env) (feature : Feature) (baseUrl : String) :
    ∀ (l : List String) (i : Nat) (s : TState),
      closeCount (runStepsLoop env feature baseUrl l i s).2.trace = closeCount s.trace := by
  intro l
  induction l with
  | nil => intro i s; rfl
  | cons step rest ih =>
    intro i s
    rcases hE : executeStep env feature step baseUrl s with ⟨sr, s1⟩
    have h1 : closeCount s1.trace = closeCount s.trace := by
      have h := closeCount_executeStep env feature step baseUrl s
      rw [hE] at h
      exact h
    simp only [runStepsLoop, hE]
    split
    · rw [ih (i + 1) s1]
      exact h1
    · rw [closeCount_runCmd _ _ _ (long_ne_close (p := "screenshot ") (by decide) _)]
      exact h1

theorem openCmdOf_ne_close (opts : RunOptions) : openCmdOf opts ≠ "close" := by
  intro e
  have h2 : (openCmdOf opts).length = "close".length := congrArg String.length e
  simp only [openCmdOf, String.length_append] at h2
  have hc : "close".length = 5 := rfl
  have ho : "open ".length = 5 := rfl
  have hs : " ".length = 1 := rfl
  rw [hc, ho, hs] at h2
  omega

/-- C1 (amended): the number of `close` commands one `runFeatureTest` call
appends to the trace is 0 when the dependency is missing and cannot be
installed (the run returns before the `try`/`finally`), 2 when the first
`open` attempt fails (the best-effort close between the two open attempts
plus the `finally` close, whatever the retry's outcome and branch), and 1 in
every other run (the `finally` close only) — so not unconditionally one. -/
theorem close_commands_per_run (env : Env) (feature : Feature) (opts : RunOptions)
    (s : TState) :
    closeCount (runFeatureTest env feature opts s).2.trace =
      closeCount s.trace +
        (if depAvailable env then
           (if (env.oracle s.count (openCmdOf opts)).success then 1 else 2)
         else 0) := by
  by_cases hd : depAvailable env = true
  case neg =>
    have hd' : depAvailable env = false := by simpa using hd
    simp [runFeatureTest, hd']
  case pos =>
    unfold runFeatureTest
    rw [hd]
    by_cases h1 : (env.oracle s.count (openCmdOf opts)).success = true
    · simp only [openWithRetry, runCmd, h1, if_true, Bool.not_true, Bool.false_eq_true,
        if_false, hd]
      split
      · simp [runCmd, getSnapshot, closeCount_append, closeCount, openCmdOf_ne_close,
          ifclose_snapshot, h1]
      · simp [runCmd, closeCount_runStepsLoop, closeCount_append, closeCount,
          openCmdOf_ne_close, h1]
    · have h1' : (env.oracle s.count (openCmdOf opts)).success = false := by
        simpa using h1
      simp only [openWithRetry, runCmd, h1', Bool.false_eq_true, if_false, Bool.not_true,
        hd, if_true]
      split
      · split
        · simp [runCmd, getSnapshot, closeCount_append, closeCount, openCmdOf_ne_close,
            ifclose_snapshot, h1']
        · simp [runCmd, closeCount_runStepsLoop, closeCount_append, closeCount,
            openCmdOf_ne_close, h1']
      · simp [runCmd, closeCount_append, closeCount, openCmdOf_ne_close, h1']


/-- C6: when the first `open` fails, exactly one best-effort `close` is
issued (result ignored) and `open` is retried exactly once — the trace of
session acquisition is `[open, close, open]` and its result is the retry's
result, so a retry that succeeds yields successful acquisition with two open
invocations and one close in between; when the retry also fails,
`runFeatureTest` returns `passed = false` carrying the underlying gateway
error in `Failed to open browser: …`, executes no steps, and the whole trace
is `[open, close, open, close]`. -/
theorem open_retry_once (env : Env) (feature : Feature) (opts : RunOptions)
    (hdep : depAvailable env = true)
    (hfail : (env.oracle 0 (openCmdOf opts)).success = false) :
    (openWithRetry env (openCmdOf opts) ⟨0, []⟩).1 = env.oracle 2 (openCmdOf opts) ∧
    (openWithRetry env (openCmdOf opts) ⟨0, []⟩).2.trace =
      [openCmdOf opts, "close", openCmdOf opts] ∧
    ((env.oracle 2 (openCmdOf opts)).success = false →
      (runFeatureTest env feature opts ⟨0, []⟩).1.passed = false ∧
      (runFeatureTest env feature opts ⟨0, []⟩).1.error =
        some ("Failed to open browser: " ++ (env.oracle 2 (openCmdOf opts)).error) ∧
      (runFeatureTest env feature opts ⟨0, []⟩).1.steps = [] ∧
      (runFeatureTest env feature opts ⟨0, []⟩).2.trace =
        [openCmdOf opts, "close", openCmdOf opts, "close"]) := by
  refine ⟨?_, ?_, ?_⟩
  · simp [openWithRetry, runCmd, hfail]
  · simp [openWithRetry, runCmd, hfail]
  · intro h2
    unfold runFeatureTest
    rw [hdep]
    simp [openWithRetry, runCmd, hfail, h2]

/-- Witness for `open_retry_once`: every command fails, so the first open
fails and the retry fails as well. -/
theorem open_retry_once_witness :
    depAvailable envAllFail = true ∧
    (envAllFail.oracle 0 (openCmdOf optsDefault)).success = false ∧
    ((openWithRetry envAllFail (openCmdOf optsDefault) ⟨0, []⟩).1 =
        envAllFail.oracle 2 (openCmdOf optsDefault) ∧
      (openWithRetry envAllFail (openCmdOf optsDefault) ⟨0, []⟩).2.trace =
        [openCmdOf optsDefault, "close", openCmdOf optsDefault] ∧
      ((envAllFail.oracle 2 (openCmdOf optsDefault)).success = false →
        (runFeatureTest envAllFail featOneStep optsDefault ⟨0, []⟩).1.passed = false ∧
        (runFeatureTest envAllFail featOneStep optsDefault ⟨0, []⟩).1.error =
          some ("Failed to open browser: " ++
            (envAllFail.oracle 2 (openCmdOf optsDefault)).error) ∧
        (runFeatureTest envAllFail featOneStep optsDefault ⟨0, []⟩).1.steps = [] ∧
        (runFeatureTest envAllFail featOneStep optsDefault ⟨0, []⟩).2.trace =
          [openCmdOf optsDefault, "close", openCmdOf optsDefault, "close"])) :=
  ⟨by decide, by decide,
   open_retry_once envAllFail featOneStep optsDefault (by decide) (by decide)⟩

/-- C3 (amended): for a zero-step feature with the dependency present and the
session acquired, the run performs exactly one generic validation — a single
`snapshot -i --json` command before the closing command — and returns zero
StepResults with `passed` equal to the `snapshot && snapshot.success` check
and `error` equal to `Page failed to load` exactly when that check fails. -/
theorem zero_steps_generic_validation (env : Env) (feature : Feature) (opts : RunOptions)
    (s : TState) (hdep : depAvailable env = true) (hsteps : feature.steps = [])
    (hopen : (openWithRetry env (openCmdOf opts) s).1.success = true) :
    (runFeatureTest env feature opts s).1.steps = [] ∧
    (runFeatureTest env feature opts s).1.passed =
      snapshotOk (getSnapshot env (openWithRetry env (openCmdOf opts) s).2).1 ∧
    (runFeatureTest env feature opts s).1.error =
      (if snapshotOk (getSnapshot env (openWithRetry env (openCmdOf opts) s).2).1 then none
       else some "Page failed to load") ∧
    (runFeatureTest env feature opts s).2.trace =
      (openWithRetry env (openCmdOf opts) s).2.trace ++ ["snapshot -i --json", "close"] := by
  unfold runFeatureTest
  rw [hdep]
  rcases hOW : openWithRetry env (openCmdOf opts) s with ⟨openR, s1⟩
  rw [hOW] at hopen
  simp only at hopen
  simp [hopen, hsteps, getSnapshot, runCmd, snapshotOk]

/-- Witness for `zero_steps_generic_validation`. -/
theorem zero_steps_generic_validation_witness :
    depAvailable envAllOk = true ∧ featNoSteps.steps = [] ∧
    (openWithRetry envAllOk (openCmdOf optsDefault) ⟨0, []⟩).1.success = true ∧
    ((runFeatureTest envAllOk featNoSteps optsDefault ⟨0, []⟩).1.steps = [] ∧
     (runFeatureTest envAllOk featNoSteps optsDefault ⟨0, []⟩).1.passed =
       snapshotOk (getSnapshot envAllOk
         (openWithRetry envAllOk (openCmdOf optsDefault) ⟨0, []⟩).2).1 ∧
     (runFeatureTest envAllOk featNoSteps optsDefault ⟨0, []⟩).1.error =
       (if snapshotOk (getSnapshot envAllOk
           (openWithRetry envAllOk (openCmdOf optsDefault) ⟨0, []⟩).2).1 then none
        else some "Page failed to load") ∧
     (runFeatureTest envAllOk featNoSteps optsDefault ⟨0, []⟩).2.trace =
       (openWithRetry envAllOk (openCmdOf optsDefault) ⟨0, []⟩).2.trace ++
         ["snapshot -i --json", "close"]) :=
  ⟨by decide, by decide, by decide,
   zero_steps_generic_validation envAllOk featNoSteps optsDefault ⟨0, []⟩
     (by decide) (by decide) (by decide)⟩

theorem runFeatureTest_featureId (env : Env) (f : Feature) (opts : RunOptions) (s : TState) :
    (runFeatureTest env f opts s).1.featureId = f.id := by
  unfold runFeatureTest
  repeat' split
  all_goals rfl

theorem runBatchLoop_ids (env : Env) (opts : RunOptions) :
    ∀ (fs : List Feature) (s : TState),
      (runBatchLoop env opts fs s).1.map (·.featureId) =
        (fs.filter (fun f => f.passes || opts.testAll)).map (·.id) := by
  intro fs
  induction fs with
  | nil => intro s; rfl
  | cons f t ih =>
    intro s
    by_cases hf : (f.passes || opts.testAll) = true
    · rcases hr : runFeatureTest env f opts s with ⟨r, s1⟩
      rcases hb : runBatchLoop env opts t s1 with ⟨rs, p, q, s2⟩
      have hid : r.featureId = f.id := by
        have h := runFeatureTest_featureId env f opts s
        rw [hr] at h
        exact h
      have htail := ih s1
      rw [hb] at htail
      simp only [runBatchLoop, hf, if_true, hr, hb, List.filter_cons, List.map_cons]
      simp [hid, htail]
    · have hf' : (f.passes || opts.testAll) = false := by simpa using hf
      simp only [runBatchLoop, hf', Bool.false_eq_true, if_false, List.filter_cons]
      simp [hf', ih s]

theorem runBatchLoop_counts (env : Env) (opts : RunOptions) :
    ∀ (fs : List Feature) (s : TState),
      (runBatchLoop env opts fs s).2.1 + (runBatchLoop env opts fs s).2.2.1 =
        (fs.filter (fun f => f.passes || opts.testAll)).length := by
  intro fs
  induction fs with
  | nil => intro s; rfl
  | cons f t ih =>
    intro s
    by_cases hf : (f.passes || opts.testAll) = true
    · rcases hr : runFeatureTest env f opts s with ⟨r, s1⟩
      rcases hb : runBatchLoop env opts t s1 with ⟨rs, p, q, s2⟩
      have htail := ih s1
      rw [hb] at htail
      simp only [runBatchLoop, hf, if_true, hr, hb, List.filter_cons]
      simp only [hf, if_true, List.length_cons]
      cases hrp : r.passed <;> simp at htail ⊢ <;> omega
    · have hf' : (f.passes || opts.testAll) = false := by simpa using hf
      simp only [runBatchLoop, hf', Bool.false_eq_true, if_false, List.filter_cons]
      simp [hf', ih s]

/-- C7: `runAllTests` verifies the external dependency once up front — if it
is unavailable the batch returns immediately with `failed = features.length`,
no results and an untouched gateway state; otherwise it runs exactly the
features that are accepted (`passes`) or forced by `testAll`, in their given
order. -/
theorem batch_runner_filter (env : Env) (features : List Feature) (opts : RunOptions)
    (s : TState) :
    ((runAllTests env features opts s).1.results.map (·.featureId) =
      if depAvailable env then
        (features.filter (fun f => f.passes || opts.testAll)).map (·.id)
      else []) ∧
    (depAvailable env = false →
      (runAllTests env features opts s).1 =
        ⟨features.length, 0, features.length, [], some "agent-browser is not installed"⟩ ∧
      (runAllTests env features opts s).2 = s) := by
  by_cases hd : depAvailable env = true
  · rcases hb : runBatchLoop env opts features s with ⟨rs, p, q, s1⟩
    have hids := runBatchLoop_ids env opts features s
    rw [hb] at hids
    constructor
    · simp [runAllTests, hd, hb, hids]
    · intro hcontra
      rw [hd] at hcontra
      exact absurd hcontra (by decide)
  · have hd' : depAvailable env = false := by simpa using hd
    constructor
    · simp [runAllTests, hd']
    · intro _
      constructor <;> simp [runAllTests, hd']

/-- Witness for `batch_runner_filter`: with `testAll` unset only the accepted
feature A runs; with `testAll` set both A and B run in order; with the
dependency missing the batch fails wholesale with an untouched state. -/
theorem batch_runner_filter_witness :
    ((runAllTests envAllOk [featA, featB] optsDefault ⟨0, []⟩).1.results.map (·.featureId) =
      if depAvailable envAllOk then
        ([featA, featB].filter (fun f => f.passes || optsDefault.testAll)).map (·.id)
      else []) ∧
    ((runAllTests envAllOk [featA, featB] optsTestAll ⟨0, []⟩).1.results.map (·.featureId) =
      if depAvailable envAllOk then
        ([featA, featB].filter (fun f => f.passes || optsTestAll.testAll)).map (·.id)
      else []) ∧
    (depAvailable envNoDep = false →
      (runAllTests envNoDep [featA, featB] optsDefault ⟨0, []⟩).1 =
        ⟨2, 0, 2, [], some "agent-browser is not installed"⟩ ∧
      (runAllTests envNoDep [featA, featB] optsDefault ⟨0, []⟩).2 = ⟨0, []⟩) :=
  ⟨(batch_runner_filter envAllOk [featA, featB] optsDefault ⟨0, []⟩).1,
   (batch_runner_filter envAllOk [featA, featB] optsTestAll ⟨0, []⟩).1,
   (batch_runner_filter envNoDep [featA, featB] optsDefault ⟨0, []⟩).2⟩

/-- C10: when the dependency is available, every included feature increments
exactly one of the two counters, so `total = passed + failed` and `total`
equals the number of included (executed) features — the length of the
filtered list, not in general of the input list. -/
theorem batch_counters (env : Env) (features : List Feature) (opts : RunOptions)
    (s : TState) (hdep : depAvailable env = true) :
    (runAllTests env features opts s).1.total =
      (runAllTests env features opts s).1.passed +
        (runAllTests env features opts s).1.failed ∧
    (runAllTests env features opts s).1.total =
      (features.filter (fun f => f.passes || opts.testAll)).length := by
  rcases hb : runBatchLoop env opts features s with ⟨rs, p, q, s1⟩
  have hc := runBatchLoop_counts env opts features s
  rw [hb] at hc
  simp only at hc
  constructor
  · simp [runAllTests, hdep, hb]
  · simp [runAllTests, hdep, hb]
    exact hc

/-- Witness for `batch_counters`: one of the two features is excluded, so the
total is 1, not the input length 2. -/
theorem batch_counters_witness :
    depAvailable envAllOk = true ∧
    ((runAllTests envAllOk [featA, featB] optsDefault ⟨0, []⟩).1.total =
      (runAllTests envAllOk [featA, featB] optsDefault ⟨0, []⟩).1.passed +
        (runAllTests envAllOk [featA, featB] optsDefault ⟨0, []⟩).1.failed ∧
     (runAllTests envAllOk [featA, featB] optsDefault ⟨0, []⟩).1.total =
      ([featA, featB].filter (fun f => f.passes || optsDefault.testAll)).length) ∧
    (runAllTests envAllOk [featA, featB] optsDefault ⟨0, []⟩).1.total ≠
      [featA, featB].length :=
  ⟨by decide, batch_counters envAllOk [featA, featB] optsDefault ⟨0, []⟩ (by decide),
   by decide⟩


theorem runStepsLoop_first_fail (env : Env) (feature : Feature) (baseUrl : String) :
    ∀ (l : List String) (i : Nat) (s : TState) (j : Nat),
      (∀ m, m < j →
        ((runStepsLoop env feature baseUrl l i s).1.recs.getD m default).passed = true) →
      ((runStepsLoop env feature baseUrl l i s).1.recs.getD j default).passed = false →
      j < (runStepsLoop env feature baseUrl l i s).1.recs.length →
      (runStepsLoop env feature baseUrl l i s).1.recs.length = j + 1 ∧
      (runStepsLoop env feature baseUrl l i s).1.passed = false ∧
      (runStepsLoop env feature baseUrl l i s).1.error =
        some ("Step " ++ toString (i + j + 1) ++ " failed: " ++
          jsTemplate ((runStepsLoop env feature baseUrl l i s).1.recs.getD j default).error) ∧
      (∃ ts : Nat, (runStepsLoop env feature baseUrl l i s).1.shots =
        ["test-failure-" ++ feature.id ++ "-" ++ toString ts ++ ".png"]) ∧
      (runStepsLoop env feature baseUrl l i s).1.recs.map (·.step) = l.take (j + 1) := by
  intro l
  induction l with
  | nil =>
    intro i s j h1 h2 h3
    simp [runStepsLoop] at h3
  | cons step rest ih =>
    intro i s j h1 h2 h3
    rcases hE : executeStep env feature step baseUrl s with ⟨sr, s1⟩
    by_cases hp : sr.passed = true
    · rcases hL : runStepsLoop env feature baseUrl rest (i + 1) s1 with ⟨out, s2⟩
      have hred : (runStepsLoop env feature baseUrl (step :: rest) i s).1 =
          ⟨⟨step, sr.passed, sr.error⟩ :: out.recs, out.passed, out.error, out.shots⟩ := by
        simp [runStepsLoop, hE, hp, hL]
      cases j with
      | zero =>
        rw [hred] at h2
        simp [hp] at h2
      | succ j' =>
        rw [hred] at h1 h2 h3
        simp only [List.getD_cons_succ] at h1 h2
        simp only [List.length_cons, Nat.succ_lt_succ_iff] at h3
        have h1' : ∀ m, m < j' → ((out.recs.getD m default).passed = true) := by
          intro m hm
          have := h1 (m + 1) (by omega)
          simpa using this
        have ihc := ih (i + 1) s1 j'
        rw [hL] at ihc
        obtain ⟨hlen, hpass, herr, hshots, hmap⟩ := ihc h1' h2 h3
        rw [hred]
        refine ⟨by simpa using hlen, by simpa using hpass, ?_, by simpa using hshots, ?_⟩
        · have harith : i + 1 + j' + 1 = i + (j' + 1) + 1 := by omega
          simp only [List.getD_cons_succ]
          rw [← harith]
          exact herr
        · simp only [List.map_cons, List.take_succ_cons]
          simp [hmap]
    · have hp' : sr.passed = false := by simpa using hp
      have hred : (runStepsLoop env feature baseUrl (step :: rest) i s).1 =
          ⟨[⟨step, sr.passed, sr.error⟩], false,
            some ("Step " ++ toString (i + 1) ++ " failed: " ++ jsTemplate sr.error),
            ["test-failure-" ++ feature.id ++ "-" ++ toString (env.now s1.count) ++ ".png"]⟩ := by
        simp [runStepsLoop, hE, hp']
      rw [hred] at h3
      simp only [List.length_cons, List.length_nil] at h3
      have hj : j = 0 := by omega
      subst hj
      rw [hred]
      refine ⟨rfl, rfl, ?_, ⟨env.now s1.count, rfl⟩, by simp⟩
      have harith : i + 0 + 1 = i + 1 := by omega
      rw [harith]
      rfl

theorem runFeatureTest_run_branch (env : Env) (feature : Feature) (opts : RunOptions)
    (s : TState) (hdep : depAvailable env = true)
    (hopen : (openWithRetry env (openCmdOf opts) s).1.success = true)
    (hne : feature.steps.isEmpty = false) :
    (runFeatureTest env feature opts s).1.steps =
      (runStepsLoop env feature (effBaseUrl opts.baseUrl) feature.steps 0
        (openWithRetry env (openCmdOf opts) s).2).1.recs ∧
    (runFeatureTest env feature opts s).1.passed =
      (runStepsLoop env feature (effBaseUrl opts.baseUrl) feature.steps 0
        (openWithRetry env (openCmdOf opts) s).2).1.passed ∧
    (runFeatureTest env feature opts s).1.error =
      (runStepsLoop env feature (effBaseUrl opts.baseUrl) feature.steps 0
        (openWithRetry env (openCmdOf opts) s).2).1.error ∧
    (runFeatureTest env feature opts s).1.screenshots =
      (runStepsLoop env feature (effBaseUrl opts.baseUrl) feature.steps 0
        (openWithRetry env (openCmdOf opts) s).2).1.shots := by
  unfold runFeatureTest
  rw [hdep]
  rcases hOW : openWithRetry env (openCmdOf opts) s with ⟨openR, s1⟩
  rw [hOW] at hopen
  simp only at hopen
  rcases hL : runStepsLoop env feature (effBaseUrl opts.baseUrl) feature.steps 0 s1
    with ⟨out, s2⟩
  simp [hopen, hne, hL]

/-- C2: if in the recorded results of a `runFeatureTest` run (dependency
present, session acquired) the step at zero-based position `j` is the first
to fail, then exactly `j + 1` StepResults were recorded (so the later steps
were never attempted), the overall flag is false, the error reads
`Step ⟨j+1⟩ failed: ⟨reason⟩` naming that step, exactly one failure
screenshot path was appended, and the recorded steps are precisely the first
`j + 1` of the feature's steps. -/
theorem first_failing_step_stops_run (env : Env) (feature : Feature) (opts : RunOptions)
    (s : TState) (j : Nat)
    (hdep : depAvailable env = true)
    (hopen : (openWithRetry env (openCmdOf opts) s).1.success = true)
    (h1 : ∀ m, m < j →
      (((runFeatureTest env feature opts s).1.steps).getD m default).passed = true)
    (h2 : (((runFeatureTest env feature opts s).1.steps).getD j default).passed = false)
    (h3 : j < ((runFeatureTest env feature opts s).1.steps).length) :
    ((runFeatureTest env feature opts s).1.steps).length = j + 1 ∧
    (runFeatureTest env feature opts s).1.passed = false ∧
    (runFeatureTest env feature opts s).1.error =
      some ("Step " ++ toString (j + 1) ++ " failed: " ++
        jsTemplate (((runFeatureTest env feature opts s).1.steps).getD j default).error) ∧
    (∃ ts : Nat, (runFeatureTest env feature opts s).1.screenshots =
      ["test-failure-" ++ feature.id ++ "-" ++ toString ts ++ ".png"]) ∧
    ((runFeatureTest env feature opts s).1.steps).map (·.step) =
      feature.steps.take (j + 1) := by
  by_cases hem : feature.steps.isEmpty = true
  · exfalso
    have hnil : feature.steps = [] := by
      cases hsteps : feature.steps with
      | nil => rfl
      | cons a t => rw [hsteps] at hem; simp at hem
    unfold runFeatureTest at h3
    rw [hdep] at h3
    rcases hOW : openWithRetry env (openCmdOf opts) s with ⟨openR, s1⟩
    rw [hOW] at h3 hopen
    simp only at hopen
    simp [hopen, hnil, getSnapshot, runCmd] at h3
  · have hne : feature.steps.isEmpty = false := by simpa using hem
    obtain ⟨e1, e2, e3, e4⟩ := runFeatureTest_run_branch env feature opts s hdep hopen hne
    rw [e1] at h1 h2 h3
    rw [e1, e2, e3, e4]
    have := runStepsLoop_first_fail env feature (effBaseUrl opts.baseUrl) feature.steps 0
      (openWithRetry env (openCmdOf opts) s).2 j h1 h2 h3
    simpa using this

/-- Witness for `first_failing_step_stops_run`: the click step fails (all
click strategies fail) as the first and only step. -/
theorem first_failing_step_stops_run_witness :
    depAvailable envClickFail = true ∧
    (openWithRetry envClickFail (openCmdOf optsDefault) ⟨0, []⟩).1.success = true ∧
    (((runFeatureTest envClickFail featOneStep optsDefault ⟨0, []⟩).1.steps).getD 0
      default).passed = false ∧
    0 < ((runFeatureTest envClickFail featOneStep optsDefault ⟨0, []⟩).1.steps).length ∧
    (((runFeatureTest envClickFail featOneStep optsDefault ⟨0, []⟩).1.steps).length = 0 + 1 ∧
     (runFeatureTest envClickFail featOneStep optsDefault ⟨0, []⟩).1.passed = false ∧
     (runFeatureTest envClickFail featOneStep optsDefault ⟨0, []⟩).1.error =
       some ("Step " ++ toString (0 + 1) ++ " failed: " ++
         jsTemplate (((runFeatureTest envClickFail featOneStep optsDefault
           ⟨0, []⟩).1.steps).getD 0 default).error) ∧
     (∃ ts : Nat, (runFeatureTest envClickFail featOneStep optsDefault ⟨0, []⟩).1.screenshots =
       ["test-failure-" ++ featOneStep.id ++ "-" ++ toString ts ++ ".png"]) ∧
     ((runFeatureTest envClickFail featOneStep optsDefault ⟨0, []⟩).1.steps).map (·.step) =
       featOneStep.steps.take (0 + 1)) :=
  ⟨by decide, by decide, by decide, by decide,
   first_failing_step_stops_run envClickFail featOneStep optsDefault ⟨0, []⟩ 0
     (by decide) (by decide) (fun m hm => absurd hm (Nat.not_lt_zero m))
     (by decide) (by decide)⟩


theorem ite_bool_and (g x : Bool) : (if g = true then x else false) = (g && x) := by
  cases g <;> simp

/-- C4 (amended): for a Verify-classified step under a position-independent
oracle, the step's outcome is exactly `verifyEval`: it passes iff the parsed
snapshot carries data whose text contains the cleaned target, or the snapshot
carries data, its text misses, and the page-text command succeeds with
nonempty output containing the target, or neither holds and the `url` command
succeeds with nonempty output containing the route-mapped target.  Snapshot
text and URL each suffice alone; the page text is consulted — and suffices —
only when the snapshot fetch yielded data.  The step fails, with error
`Could not find: "target"`, exactly when every consulted source misses. -/
theorem verify_sources_characterization (env : Env) (feature : Feature)
    (step baseUrl : String) (s : TState)
    (hst : stableOracle env)
    (hcl : classifyStep step = ActionKind.verify) :
    (executeStep env feature step baseUrl s).1.passed =
      verifyEval env (verifyTargetOf step) ∧
    (executeStep env feature step baseUrl s).1.error =
      (if verifyEval env (verifyTargetOf step) = true then none
       else some ("Could not find: \"" ++ verifyTargetOf step ++ "\"")) := by
  have hA : ∀ c, env.oracle s.count c = env.oracle 0 c := fun c => hst _ _ c
  have hB : ∀ c, env.oracle (s.count + 1) c = env.oracle 0 c := fun c => hst _ _ c
  have hC : ∀ c, env.oracle (s.count + 1 + 1) c = env.oracle 0 c := fun c => hst _ _ c
  have key : (executeStep env feature step baseUrl s).1 =
      ⟨verifyEval env (verifyTargetOf step),
        if verifyEval env (verifyTargetOf step) = true then none
        else some ("Could not find: \"" ++ verifyTargetOf step ++ "\"")⟩ := by
    unfold executeStep
    rw [hcl]
    unfold verifyEval
    simp only [getSnapshot, runCmd, hA, hB, hC]
    by_cases hg : ((env.oracle 0 "snapshot -i --json").success &&
        !((env.oracle 0 "snapshot -i --json").output = "")) = true
    · simp only [hg, if_true]
      cases hpj : env.parseJson (env.oracle 0 "snapshot -i --json").output with
      | none =>
        by_cases hu : ((env.oracle 0 "url").success &&
            !((env.oracle 0 "url").output = "")) = true <;>
          simp [hpj, hu, hA, hB, hC, ite_bool_and, Bool.and_assoc]
      | some sn =>
        cases hd : sn.data with
        | none =>
          by_cases hu : ((env.oracle 0 "url").success &&
              !((env.oracle 0 "url").output = "")) = true <;>
            simp [hpj, hd, hu, hA, hB, hC, ite_bool_and, Bool.and_assoc]
        | some d =>
          by_cases hhit : strIncl d (verifyTargetOf step) = true
          · simp [hpj, hd, hhit, hA, hB, hC]
          · have hhit' : strIncl d (verifyTargetOf step) = false := by simpa using hhit
            by_cases ht : ((env.oracle 0 "get text body").success &&
                !((env.oracle 0 "get text body").output = "")) = true
            · by_cases hth : strIncl (env.oracle 0 "get text body").output
                  (verifyTargetOf step) = true
              · simp [hpj, hd, hhit', ht, hth, hA, hB, hC, ite_bool_and, Bool.and_assoc]
              · have hth' : strIncl (env.oracle 0 "get text body").output
                    (verifyTargetOf step) = false := by simpa using hth
                by_cases hu : ((env.oracle 0 "url").success &&
                    !((env.oracle 0 "url").output = "")) = true <;>
                  simp [hpj, hd, hhit', ht, hth', hu, hA, hB, hC, ite_bool_and,
                    Bool.and_assoc]
            · have ht' : ((env.oracle 0 "get text body").success &&
                  !((env.oracle 0 "get text body").output = "")) = false := by simpa using ht
              by_cases hu : ((env.oracle 0 "url").success &&
                  !((env.oracle 0 "url").output = "")) = true <;>
                simp [hpj, hd, hhit', ht', hu, hA, hB, hC, ite_bool_and, Bool.and_assoc]
    · have hg' : ((env.oracle 0 "snapshot -i --json").success &&
          !((env.oracle 0 "snapshot -i --json").output = "")) = false := by simpa using hg
      by_cases hu : ((env.oracle 0 "url").success &&
          !((env.oracle 0 "url").output = "")) = true <;>
        simp [hg', hu, hA, hB, hC, ite_bool_and, Bool.and_assoc]
  rw [key]
  exact ⟨rfl, rfl⟩

/-- Witness for `verify_sources_characterization`: a verify step whose target
is contained in the snapshot data of `envAllOk`. -/
theorem verify_sources_characterization_witness :
    stableOracle envAllOk ∧
    classifyStep "验证 SNAP" = ActionKind.verify ∧
    ((executeStep envAllOk featNoSteps "验证 SNAP" "http://localhost:3000" ⟨0, []⟩).1.passed =
      verifyEval envAllOk (verifyTargetOf "验证 SNAP") ∧
     (executeStep envAllOk featNoSteps "验证 SNAP" "http://localhost:3000" ⟨0, []⟩).1.error =
      (if verifyEval envAllOk (verifyTargetOf "验证 SNAP") = true then none
       else some ("Could not find: \"" ++ verifyTargetOf "验证 SNAP" ++ "\""))) ∧
    verifyEval envAllOk (verifyTargetOf "验证 SNAP") = true :=
  ⟨fun _ _ _ => rfl, by decide,
   verify_sources_characterization envAllOk featNoSteps "验证 SNAP" "http://localhost:3000"
     ⟨0, []⟩ (fun _ _ _ => rfl) (by decide),
   by decide⟩

end LRA
